import Mathlib

/-!
Shallow embedding of the 3D defect-annotation viewer's region store and
label/occlusion pipeline (the `HighlightRegion` viewer class of the source),
together with proofs of the specification's testable properties.

Modelling conventions:
* JS numbers are modelled by exact rationals (`ℚ`); the claims under study
  only involve arithmetic comparisons that agree with exact arithmetic.
* `crypto.randomUUID()` is modelled by a fresh-id counter `nextId` carried in
  the viewer state: each call hands out the current counter value and bumps
  it, so distinct calls never collide (the property `randomUUID` provides).
* `Map`/`Set` objects keyed by region index or id are modelled by association
  lists / lists.
* The asynchronous decal construction (`findMeshAtPosition` plus
  `createDecalMesh`, which can fail at several stages and otherwise yields a
  renderable) is abstracted by a function `mkDecal : SavedHighlightRegion →
  Option Nat` returning the handle the GPU side would produce, and disposal
  of a decal renderable is recorded in a `disposedDecals` log.
* Methods that mutate `this` become functions `ViewerState → ... × ViewerState`.
-/

namespace Viewer

/-- A 3D vector with exact rational coordinates (models `THREE.Vector3`). -/
structure Vec3 where
  x : ℚ
  y : ℚ
  z : ℚ
deriving DecidableEq

/-- Componentwise subtraction, modelling `point.clone().sub(v)`. -/
def Vec3.sub (a b : Vec3) : Vec3 :=
  ⟨a.x - b.x, a.y - b.y, a.z - b.z⟩

/-- `export type ShapeType = "cube" | "sphere" | "none"` — `none` is the
point shape that renders no volumetric highlight. -/
inductive ShapeType where
  | cube
  | sphere
  | none
deriving DecidableEq

/-- `export type Severity = "high" | "medium" | "low"`. -/
inductive Severity where
  | high
  | medium
  | low
deriving DecidableEq

/-- `SEVERITY_COLORS` palette from the source. -/
def SEVERITY_COLORS : Severity → String
  | Severity.high => "#e53935"
  | Severity.medium => "#ff9800"
  | Severity.low => "#43a047"

/-- Opaque defect-dictionary payload (never interpreted by the core). -/
abbrev DefectEntry := String

/-- Opaque evidence reference (never interpreted by the core). -/
abbrev EvidenceItem := String

/-- `interface SavedHighlightRegion` from the source.  Region ids and decal
renderable handles are modelled by `Nat`; `decalTextureId` keeps the raw
string of the `DecalTextureId` union ("none" | "heavy" | "moderate" |
"light"), which in particular is never the empty string. -/
structure SavedHighlightRegion where
  id : Nat
  position : Vec3
  size : ℚ
  type : ShapeType
  severity : Severity
  label : String
  defectData : Option DefectEntry := Option.none
  cameraPosition : Option Vec3 := Option.none
  cameraTarget : Option Vec3 := Option.none
  normal : Option Vec3 := Option.none
  decalTextureId : Option String := Option.none
  decalMesh : Option Nat := Option.none
  notes : Option String := Option.none
  evidence : Option (List EvidenceItem) := Option.none
deriving DecidableEq

/-- `interface ExportedRegion` from the source: the JSON form of a region.
Fields that arrive from untrusted JSON keep their raw form (`severity` and
`type` as strings, `position` possibly missing) so that the import
validation is representable. -/
structure ExportedRegion where
  id : Nat
  label : String
  severity : String
  type : String
  size : ℚ
  position : Option Vec3
  defectData : Option DefectEntry := Option.none
  cameraPosition : Option Vec3 := Option.none
  cameraTarget : Option Vec3 := Option.none
  normal : Option Vec3 := Option.none
  decalTextureId : Option String := Option.none
  notes : Option String := Option.none
  evidence : Option (List EvidenceItem) := Option.none
deriving DecidableEq

/-- `interface RegionsExportData` from the source. -/
structure RegionsExportData where
  version : Int
  exportedAt : String
  regions : List ExportedRegion
deriving DecidableEq

/-- `LabelPosition` entries handed to the UI overlay. -/
structure LabelPosition where
  id : Nat
  text : String
  x : ℚ
  y : ℚ
  visible : Bool
  color : String
  severity : Severity
deriving DecidableEq

/-- `OCCLUSION_THROTTLE_FRAMES = 3` in the source. -/
def occlusionThrottleFrames : Nat := 3

/-- The viewer fields touched by the operations under verification.
`glReady` models `this.gl` (and the compiled occlusion program) being
available, `cameraReady` models `this.camera` being set, `highlightShape`
holds the dynamic preview shape's position when the preview mesh exists. -/
structure ViewerState where
  savedRegions : List SavedHighlightRegion
  hiddenRegionIds : List Nat
  occlusionQueries : List Nat
  occlusionResults : List (Nat × Bool)
  disposedDecals : List Nat
  nextId : Nat
  highlightShape : Option Vec3
  shapeVisible : Bool
  shapeBaseSize : ℚ
  shapeSizePercent : ℚ
  shapeType : ShapeType
  currentSeverity : Severity
  smoothCameraMode : Bool
  isCameraMoving : Bool
  occlusionFrameCounter : Nat
  glReady : Bool
  cameraReady : Bool
  needsLabelUpdate : Bool
  cachedLabelPositions : List LabelPosition
  dimsWidth : ℚ
  dimsHeight : ℚ
deriving DecidableEq

/-- `getCurrentShapeSize(): shapeBaseSize * (shapeSizePercent / 100)`. -/
def getCurrentShapeSize (s : ViewerState) : ℚ :=
  s.shapeBaseSize * (s.shapeSizePercent / 100)

/-- JS whitespace test for the characters `String.prototype.trim` strips
(the source only ever trims plain text labels). -/
def jsIsWhitespace (c : Char) : Bool :=
  c = ' ' || c = '\t' || c = '\n' || c = '\r'

/-- Model of `label.trim()`: drop leading and trailing whitespace. -/
def jsTrim (s : String) : String :=
  ⟨((s.data.dropWhile jsIsWhitespace).reverse.dropWhile jsIsWhitespace).reverse⟩

/-- `Math.abs`. -/
def jsAbs (q : ℚ) : ℚ :=
  if q < 0 then -q else q

/-- Cube containment test from `findRegionAtPoint`:
`Math.abs(diff.x) < halfSize && Math.abs(diff.y) < halfSize &&
Math.abs(diff.z) < halfSize`. -/
def cubeContains (diff : Vec3) (halfSize : ℚ) : Bool :=
  jsAbs diff.x < halfSize && jsAbs diff.y < halfSize && jsAbs diff.z < halfSize

/-- Sphere containment test from `findRegionAtPoint`: the source compares
`diff.length() < halfSize`; in exact arithmetic `√q < h ↔ 0 < h ∧ q < h²`,
which is the square-root-free rendering used here. -/
def sphereContains (diff : Vec3) (halfSize : ℚ) : Bool :=
  0 < halfSize &&
    diff.x * diff.x + diff.y * diff.y + diff.z * diff.z < halfSize * halfSize

/-- The shape test applied by `findRegionAtPoint` to a non-skipped region:
`cube` takes the box branch, the `else` branch is the sphere test (the
`none` shape never reaches this point; it is mapped to the sphere branch
exactly as the source's `else` would). -/
def regionContains (r : SavedHighlightRegion) (point : Vec3) : Bool :=
  let diff := point.sub r.position
  let halfSize := r.size * (1 / 2)
  match r.type with
  | ShapeType.cube => cubeContains diff halfSize
  | _ => sphereContains diff halfSize

/-- Loop body of `findRegionAtPoint`: scan in store order, skip hidden and
point-shaped regions, return the first containment match. -/
def findRegionLoop (hidden : List Nat) (point : Vec3) :
    List SavedHighlightRegion → Option Nat
  | [] => Option.none
  | r :: rest =>
    if r.id ∈ hidden then findRegionLoop hidden point rest
    else if r.type = ShapeType.none then findRegionLoop hidden point rest
    else if regionContains r point then Option.some r.id
    else findRegionLoop hidden point rest

/-- `findRegionAtPoint(point)` from the source. -/
def findRegionAtPoint (s : ViewerState) (point : Vec3) : Option Nat :=
  findRegionLoop s.hiddenRegionIds point s.savedRegions

/-- A region is a candidate hit for `findRegionAtPoint`: not hidden, not
point-shaped, and containing the point under its shape test. -/
def RegionHit (hidden : List Nat) (point : Vec3) (r : SavedHighlightRegion) : Prop :=
  r.id ∉ hidden ∧ r.type ≠ ShapeType.none ∧ regionContains r point = true

instance (hidden : List Nat) (point : Vec3) (r : SavedHighlightRegion) :
    Decidable (RegionHit hidden point r) := by
  unfold RegionHit
  infer_instance

/-- The query-issuing gate at the head of `runOcclusionQueries` (source
lines 364-387): bail out when the GL context/program/camera is missing or
no regions exist; in smooth mode skip while the camera moves; in real-time
mode skip while the camera is still, and while it moves only run every
`OCCLUSION_THROTTLE_FRAMES`-th frame (counter bumped, reset on a run).
Returns whether queries are issued this frame, plus the updated state. -/
def runOcclusionQueriesGate (s : ViewerState) : Bool × ViewerState :=
  if !s.glReady || !s.cameraReady || s.savedRegions.isEmpty then
    (false, s)
  else if s.smoothCameraMode then
    if s.isCameraMoving then (false, s) else (true, s)
  else if !s.isCameraMoving then
    (false, s)
  else
    let c := s.occlusionFrameCounter + 1
    if c < occlusionThrottleFrames then
      (false, { s with occlusionFrameCounter := c })
    else
      (true, { s with occlusionFrameCounter := 0 })

/-- `generateId()` models `crypto.randomUUID()` by a fresh counter. -/
def generateId (s : ViewerState) : Nat × ViewerState :=
  (s.nextId, { s with nextId := s.nextId + 1 })

/-- Truthiness of an optional `DecalTextureId` string
(`region.decalTextureId && region.decalTextureId !== "none"`). -/
def decalWanted (o : Option String) : Bool :=
  match o with
  | Option.some t => t ≠ "" && t ≠ "none"
  | Option.none => false

/-- The region record built by `saveCurrentRegion` before the push: snapshot
of the dynamic shape's position/size/type/severity, the trimmed label, the
optional payloads, and the decal renderable when a texture, a normal and a
target surface were all supplied (`createDecalMesh` abstracted by
`decalResult`, whose `Option.none` models every failure path). -/
def savedRegionOf (s : ViewerState) (label : String)
    (defectData : Option DefectEntry) (cameraPosition cameraTarget normal : Option Vec3)
    (decalTextureId : Option String) (hasTargetObject : Bool)
    (decalResult : Option Nat) : SavedHighlightRegion :=
  let region : SavedHighlightRegion :=
    { id := s.nextId
      position := s.highlightShape.getD ⟨0, 0, 0⟩
      size := getCurrentShapeSize s
      type := s.shapeType
      severity := s.currentSeverity
      label := jsTrim label
      defectData := defectData
      cameraPosition := cameraPosition
      cameraTarget := cameraTarget
      normal := normal
      decalTextureId := decalTextureId }
  if decalWanted decalTextureId && normal.isSome && hasTargetObject then
    { region with decalMesh := decalResult }
  else region

/-- `saveCurrentRegion(label, defectData?, cameraPosition?, cameraTarget?,
normal?, decalTextureId?, targetObject?)` from the source.  The decal
construction result of `createDecalMesh` is abstracted by `decalResult`
(`Option.none` models every failure path).  Returns the saved region id (or
`Option.none` when the save is refused) and the updated state. -/
def saveCurrentRegion (s : ViewerState) (label : String)
    (defectData : Option DefectEntry) (cameraPosition cameraTarget normal : Option Vec3)
    (decalTextureId : Option String) (hasTargetObject : Bool)
    (decalResult : Option Nat) : Option Nat × ViewerState :=
  if s.highlightShape.isNone || !s.shapeVisible then
    (Option.none, s)
  else if jsTrim label = "" then
    (Option.none, s)
  else
    let (newId, s1) := generateId s
    let region := savedRegionOf s label defectData cameraPosition cameraTarget
      normal decalTextureId hasTargetObject decalResult
    (Option.some newId,
      { s1 with savedRegions := s1.savedRegions ++ [region], needsLabelUpdate := true })

/-- The plain-object projection returned by `getRegions()`. -/
structure RegionInfo where
  id : Nat
  label : String
  severity : Severity
  type : ShapeType
  size : ℚ
  defectData : Option DefectEntry
  decalTextureId : Option String
  notes : Option String
  evidence : Option (List EvidenceItem)
deriving DecidableEq

/-- `getRegions()` from the source. -/
def getRegions (s : ViewerState) : List RegionInfo :=
  s.savedRegions.map fun r =>
    { id := r.id
      label := r.label
      severity := r.severity
      type := r.type
      size := r.size
      defectData := r.defectData
      decalTextureId := r.decalTextureId
      notes := r.notes
      evidence := r.evidence }

/-- Severity to its JSON string. -/
def severityToString : Severity → String
  | Severity.high => "high"
  | Severity.medium => "medium"
  | Severity.low => "low"

/-- Parse a JSON severity string; `Option.isSome` of this is exactly the
source's `validSeverities.includes(region.severity)` test. -/
def severityOfString (t : String) : Option Severity :=
  if t = "high" then Option.some Severity.high
  else if t = "medium" then Option.some Severity.medium
  else if t = "low" then Option.some Severity.low
  else Option.none

/-- Shape type to its JSON string. -/
def shapeTypeToString : ShapeType → String
  | ShapeType.cube => "cube"
  | ShapeType.sphere => "sphere"
  | ShapeType.none => "none"

/-- Parse a JSON shape string; `Option.isSome` of this is exactly the
source's `validTypes.includes(region.type)` test. -/
def shapeTypeOfString (t : String) : Option ShapeType :=
  if t = "cube" then Option.some ShapeType.cube
  else if t = "sphere" then Option.some ShapeType.sphere
  else if t = "none" then Option.some ShapeType.none
  else Option.none

/-- JS truthiness filter on an optional string field
(`if (r.decalTextureId) ...`: present and non-empty). -/
def truthyStr (o : Option String) : Option String :=
  match o with
  | Option.some t => if t = "" then Option.none else Option.some t
  | Option.none => Option.none

/-- Serialization of one region inside `exportRegions()`: all §3 fields with
plain coordinate triples, optional fields emitted only when present
(`decalTextureId` under JS truthiness, `notes`/`evidence` under an
`!== undefined` check); `decalMesh` is never serialized. -/
def exportRegion (r : SavedHighlightRegion) : ExportedRegion where
  id := r.id
  label := r.label
  severity := severityToString r.severity
  type := shapeTypeToString r.type
  size := r.size
  position := Option.some r.position
  defectData := r.defectData
  cameraPosition := r.cameraPosition
  cameraTarget := r.cameraTarget
  normal := r.normal
  decalTextureId := truthyStr r.decalTextureId
  notes := r.notes
  evidence := r.evidence

/-- `exportRegions()` from the source; `now` stands for the
`new Date().toISOString()` timestamp. -/
def exportRegions (s : ViewerState) (now : String) : RegionsExportData where
  version := 1
  exportedAt := now
  regions := s.savedRegions.map exportRegion

/-- The per-region validation of `importRegions`, returning the first error
in source order: missing/empty label, severity outside the fixed set, shape
outside the fixed set, non-positive size, malformed position.  (The
payload's field types already guarantee the remaining source checks
`typeof label/size !== "number"/"string"` and numeric coordinates.) -/
def regionValidationError (e : ExportedRegion) : Option String :=
  if e.label = "" then
    Option.some "Invalid region: label is required"
  else if (severityOfString e.severity).isNone then
    Option.some "Invalid region severity"
  else if (shapeTypeOfString e.type).isNone then
    Option.some "Invalid region type"
  else if e.size ≤ 0 then
    Option.some "Invalid region: size must be a positive number"
  else if e.position.isNone then
    Option.some "Invalid region: position must have x, y, z coordinates"
  else Option.none

/-- The validation loop of `importRegions` over the whole payload. -/
def firstInvalid : List ExportedRegion → Option String
  | [] => Option.none
  | e :: rest =>
    match regionValidationError e with
    | Option.some msg => Option.some msg
    | Option.none => firstInvalid rest

/-- Construction of one imported region (the body of the import loop): a
freshly generated id, required fields copied, optional fields copied when
present (the `getD` defaults are unreachable, since validation already
ensured the parses succeed and the position exists). -/
def importOne (n : Nat) (e : ExportedRegion) : SavedHighlightRegion where
  id := n
  label := e.label
  severity := (severityOfString e.severity).getD Severity.high
  type := (shapeTypeOfString e.type).getD ShapeType.cube
  size := e.size
  position := e.position.getD ⟨0, 0, 0⟩
  defectData := e.defectData
  cameraPosition := e.cameraPosition
  cameraTarget := e.cameraTarget
  normal := e.normal
  decalTextureId := truthyStr e.decalTextureId
  notes := e.notes
  evidence := e.evidence

/-- The import loop: one fresh id per payload region, in payload order. -/
def importRegionsList (n : Nat) : List ExportedRegion → List SavedHighlightRegion
  | [] => []
  | e :: rest => importOne n e :: importRegionsList (n + 1) rest

/-- `updateDecalMesh(region)` from the source: dispose any existing decal
renderable (recorded in the `log`), then, when a decal texture other than
"none" and a surface normal are present, attach the handle produced by the
abstracted mesh-search/decal-construction `mk` (its `Option.none` models
every failure path: no mesh hit, texture load failure, geometry error). -/
def updateDecalMeshR (mk : SavedHighlightRegion → Option Nat)
    (r : SavedHighlightRegion) (log : List Nat) : SavedHighlightRegion × List Nat :=
  let log1 := log ++ r.decalMesh.toList
  let r1 := { r with decalMesh := Option.none }
  if decalWanted r1.decalTextureId && r1.normal.isSome then
    ({ r1 with decalMesh := mk r1 }, log1)
  else (r1, log1)

/-- The post-import pass recreating decals: for every stored region with a
decal texture other than "none" and a normal, run `updateDecalMesh`. -/
def decalPass (mk : SavedHighlightRegion → Option Nat) :
    List SavedHighlightRegion → List Nat → List SavedHighlightRegion × List Nat
  | [], log => ([], log)
  | r :: rest, log =>
    if decalWanted r.decalTextureId && r.normal.isSome then
      let p := updateDecalMeshR mk r log
      let q := decalPass mk rest p.2
      (p.1 :: q.1, q.2)
    else
      let q := decalPass mk rest log
      (r :: q.1, q.2)

/-- `importRegions(data, replace)` from the source: validate the version and
every region before any mutation; in replace mode clear the store and (when
a GL context exists) delete all occlusion queries and cached results; then
append one region per payload entry with a fresh id, recreate decals, and
report the imported count.  The returned state is the receiver after the
call — unchanged whenever an error is thrown, since every validation
precedes the first mutation in the source. -/
def importRegions (s : ViewerState) (data : RegionsExportData) (replace : Bool)
    (mk : SavedHighlightRegion → Option Nat) : ViewerState × Except String Nat :=
  if data.version ≠ 1 then
    (s, Except.error "Unsupported export version")
  else
    match firstInvalid data.regions with
    | Option.some msg => (s, Except.error msg)
    | Option.none =>
      let s1 :=
        if replace then
          { s with savedRegions := []
                   occlusionQueries := if s.glReady then [] else s.occlusionQueries
                   occlusionResults := if s.glReady then [] else s.occlusionResults }
        else s
      let imported := importRegionsList s1.nextId data.regions
      let s2 := { s1 with savedRegions := s1.savedRegions ++ imported
                          nextId := s1.nextId + data.regions.length }
      let p := decalPass mk s2.savedRegions s2.disposedDecals
      ({ s2 with savedRegions := p.1
                 disposedDecals := p.2
                 needsLabelUpdate := true },
        Except.ok data.regions.length)

/-- The optional-field patch accepted by `updateRegion` (a field is applied
exactly when it is present). -/
structure RegionUpdates where
  label : Option String := Option.none
  severity : Option Severity := Option.none
  type : Option ShapeType := Option.none
  size : Option ℚ := Option.none
  defectData : Option DefectEntry := Option.none
  cameraPosition : Option Vec3 := Option.none
  cameraTarget : Option Vec3 := Option.none
  decalTextureId : Option String := Option.none
  notes : Option String := Option.none
  evidence : Option (List EvidenceItem) := Option.none
deriving DecidableEq

/-- `if (updates.label !== undefined) region.label = updates.label`. -/
def patchLabel (u : RegionUpdates) (r : SavedHighlightRegion) : SavedHighlightRegion :=
  match u.label with
  | Option.some v => { r with label := v }
  | Option.none => r

/-- `if (updates.severity !== undefined) ...`. -/
def patchSeverity (u : RegionUpdates) (r : SavedHighlightRegion) : SavedHighlightRegion :=
  match u.severity with
  | Option.some v => { r with severity := v }
  | Option.none => r

/-- `if (updates.type !== undefined) ...`. -/
def patchType (u : RegionUpdates) (r : SavedHighlightRegion) : SavedHighlightRegion :=
  match u.type with
  | Option.some v => { r with type := v }
  | Option.none => r

/-- `if (updates.size !== undefined)`: apply the size as given (no
validation), then recompute the decal when the region owns one or requests
a texture other than "none". -/
def patchSize (mk : SavedHighlightRegion → Option Nat) (u : RegionUpdates)
    (r : SavedHighlightRegion) (log : List Nat) : SavedHighlightRegion × List Nat :=
  match u.size with
  | Option.some v =>
    let r1 := { r with size := v }
    if r1.decalMesh.isSome || decalWanted r1.decalTextureId then
      updateDecalMeshR mk r1 log
    else (r1, log)
  | Option.none => (r, log)

/-- `if (updates.decalTextureId !== undefined)`: set it, then always
recompute the decal mesh. -/
def patchDecalTexture (mk : SavedHighlightRegion → Option Nat) (u : RegionUpdates)
    (r : SavedHighlightRegion) (log : List Nat) : SavedHighlightRegion × List Nat :=
  match u.decalTextureId with
  | Option.some v => updateDecalMeshR mk { r with decalTextureId := Option.some v } log
  | Option.none => (r, log)

/-- `if (updates.defectData !== undefined) ...`. -/
def patchDefectData (u : RegionUpdates) (r : SavedHighlightRegion) : SavedHighlightRegion :=
  match u.defectData with
  | Option.some v => { r with defectData := Option.some v }
  | Option.none => r

/-- `if (updates.cameraPosition !== undefined) ...`. -/
def patchCameraPosition (u : RegionUpdates) (r : SavedHighlightRegion) : SavedHighlightRegion :=
  match u.cameraPosition with
  | Option.some v => { r with cameraPosition := Option.some v }
  | Option.none => r

/-- `if (updates.cameraTarget !== undefined) ...`. -/
def patchCameraTarget (u : RegionUpdates) (r : SavedHighlightRegion) : SavedHighlightRegion :=
  match u.cameraTarget with
  | Option.some v => { r with cameraTarget := Option.some v }
  | Option.none => r

/-- `if (updates.notes !== undefined) ...`. -/
def patchNotes (u : RegionUpdates) (r : SavedHighlightRegion) : SavedHighlightRegion :=
  match u.notes with
  | Option.some v => { r with notes := Option.some v }
  | Option.none => r

/-- `if (updates.evidence !== undefined) ...`. -/
def patchEvidence (u : RegionUpdates) (r : SavedHighlightRegion) : SavedHighlightRegion :=
  match u.evidence with
  | Option.some v => { r with evidence := Option.some v }
  | Option.none => r

/-- The field-by-field patch body of `updateRegion`, in source order: label,
severity, type, size (recomputing the decal when the region owns one or
requests a texture), decalTextureId (always recomputing the decal), then
defectData, cameraPosition, cameraTarget, notes, evidence. -/
def applyUpdates (mk : SavedHighlightRegion → Option Nat) (u : RegionUpdates)
    (r : SavedHighlightRegion) (log : List Nat) : SavedHighlightRegion × List Nat :=
  let r1 := patchType u (patchSeverity u (patchLabel u r))
  let p := patchSize mk u r1 log
  let q := patchDecalTexture mk u p.1 p.2
  (patchEvidence u (patchNotes u (patchCameraTarget u
    (patchCameraPosition u (patchDefectData u q.1)))), q.2)

/-- `findIndex` + in-place patch of the matching region (first match). -/
def updateLoop (mk : SavedHighlightRegion → Option Nat) (u : RegionUpdates) (n : Nat) :
    List SavedHighlightRegion → List Nat → Option (List SavedHighlightRegion × List Nat)
  | [], _ => Option.none
  | r :: rest, log =>
    if r.id = n then
      let p := applyUpdates mk u r log
      Option.some (p.1 :: rest, p.2)
    else
      match updateLoop mk u n rest log with
      | Option.some (rest1, log1) => Option.some (r :: rest1, log1)
      | Option.none => Option.none

/-- `updateRegion(id, updates)` from the source: `false` when the id is
unknown, otherwise apply the patch to the first matching region. -/
def updateRegion (s : ViewerState) (n : Nat) (u : RegionUpdates)
    (mk : SavedHighlightRegion → Option Nat) : Bool × ViewerState :=
  match updateLoop mk u n s.savedRegions s.disposedDecals with
  | Option.none => (false, s)
  | Option.some (l, log) =>
    (true, { s with savedRegions := l, disposedDecals := log, needsLabelUpdate := true })

/-- `findIndex` + `splice` of `deleteRegion`: locate the first region with
the given id and remove it, keeping the rest in order. -/
def deleteLoop (n : Nat) :
    List SavedHighlightRegion → Option (SavedHighlightRegion × List SavedHighlightRegion)
  | [] => Option.none
  | r :: rest =>
    if r.id = n then Option.some (r, rest)
    else
      match deleteLoop n rest with
      | Option.some (x, rest1) => Option.some (x, r :: rest1)
      | Option.none => Option.none

/-- `deleteRegion(id)` from the source: `false` for an unknown id;
otherwise dispose the region's decal renderable (if any), splice the region
out, clear all occlusion queries and cached results (when a GL context
exists), and refresh uniforms/labels. -/
def deleteRegion (s : ViewerState) (n : Nat) : Bool × ViewerState :=
  match deleteLoop n s.savedRegions with
  | Option.none => (false, s)
  | Option.some (r, remaining) =>
    (true,
      { s with savedRegions := remaining
               disposedDecals := s.disposedDecals ++ r.decalMesh.toList
               occlusionQueries := if s.glReady then [] else s.occlusionQueries
               occlusionResults := if s.glReady then [] else s.occlusionResults
               needsLabelUpdate := true })

/-- The NDC rejection test of `project3DToScreen`: point behind the camera
(`z > 1` after projection) or outside the `[-1, 1]` viewport range. -/
def ndcRejected (q : Vec3) : Prop :=
  q.z > 1 ∨ q.x < -1 ∨ q.x > 1 ∨ q.y < -1 ∨ q.y > 1

instance (q : Vec3) : Decidable (ndcRejected q) := by
  unfold ndcRejected
  infer_instance

/-- `project3DToScreen(worldPoint)` from the source.  The camera projection
`worldPoint → normalized device coordinates` is abstracted by `ndcOf`
(modelling `_tempProjection.copy(worldPoint).project(this.camera)`); `null`
is returned when no camera exists or the NDC test rejects the point,
otherwise the pixel coordinates. -/
def project3DToScreen (ndcOf : Vec3 → Vec3) (s : ViewerState) (worldPoint : Vec3) :
    Option (ℚ × ℚ) :=
  if !s.cameraReady then Option.none
  else
    let q := ndcOf worldPoint
    if ndcRejected q then Option.none
    else Option.some (((q.x + 1) / 2) * s.dimsWidth, ((-q.y + 1) / 2) * s.dimsHeight)

/-- `checkPointVisibility(regionIndex)` from the source: the cached GPU
occlusion result when one exists, else visible (optimistic default). -/
def checkPointVisibility (s : ViewerState) (i : Nat) : Bool :=
  (s.occlusionResults.lookup i).getD true

/-- One `LabelPosition` entry of the `getLabelPositions` loop for the region
at store index `i`: zeroed coordinates when the projection fails, `visible`
only when the projection succeeds and the occlusion test says visible. -/
def mkLabelEntry (ndcOf : Vec3 → Vec3) (s : ViewerState) (i : Nat)
    (r : SavedHighlightRegion) : LabelPosition :=
  let screenPos := project3DToScreen ndcOf s r.position
  { id := r.id
    text := r.label
    x := (screenPos.map Prod.fst).getD 0
    y := (screenPos.map Prod.snd).getD 0
    visible := screenPos.isSome && checkPointVisibility s i
    color := SEVERITY_COLORS r.severity
    severity := r.severity }

/-- The collection loop of `getLabelPositions`: walk the store with its
indices, skip hidden regions, emit one entry per remaining region. -/
def labelEntries (ndcOf : Vec3 → Vec3) (s : ViewerState) :
    Nat → List SavedHighlightRegion → List LabelPosition
  | _, [] => []
  | i, r :: rest =>
    if r.id ∈ s.hiddenRegionIds then labelEntries ndcOf s (i + 1) rest
    else mkLabelEntry ndcOf s i r :: labelEntries ndcOf s (i + 1) rest

/-- The change test of `getLabelPositions`: an entry counts as changed when
no cached entry shares its id or any compared field differs. -/
def labelChanged (cached : List LabelPosition) (e : LabelPosition) : Bool :=
  match cached.find? (fun p => p.id == e.id) with
  | Option.none => true
  | Option.some c =>
    !(c.x == e.x && c.y == e.y && c.visible == e.visible && c.text == e.text &&
      c.color == e.color && c.severity == e.severity)

/-- `getLabelPositions()` from the source: early no-update sentinel when no
refresh is flagged and the count is unchanged; otherwise rebuild the entry
list, clear the refresh flag, and return the list only when an entry
changed or the count changed (caching it), else the sentinel. -/
def getLabelPositions (ndcOf : Vec3 → Vec3) (s : ViewerState) :
    Option (List LabelPosition) × ViewerState :=
  if !s.needsLabelUpdate && s.savedRegions.length == s.cachedLabelPositions.length then
    (Option.none, s)
  else
    let positions := labelEntries ndcOf s 0 s.savedRegions
    let hasChanges := positions.any (labelChanged s.cachedLabelPositions)
    let s1 := { s with needsLabelUpdate := false }
    if hasChanges ∨ positions.length ≠ s.cachedLabelPositions.length then
      (Option.some positions, { s1 with cachedLabelPositions := positions })
    else (Option.none, s1)

/-- Projection dropping the two fields a successful re-import is allowed to
change: the freshly generated `id` and the transient `decalMesh` handle. -/
def stripVolatile (r : SavedHighlightRegion) : SavedHighlightRegion :=
  { r with id := 0, decalMesh := Option.none }

/-- The persistent content an imported payload region carries (its field
values as they land in the store, volatile fields normalized away). -/
def importedCore (e : ExportedRegion) : SavedHighlightRegion :=
  stripVolatile (importOne 0 e)

/-- The §3 data-model constraints a stored region satisfies (`label`
mandatory, `size` always positive, and — by the `DecalTextureId` union
type — a decal kind string that is never empty). -/
def WellFormedRegion (r : SavedHighlightRegion) : Prop :=
  r.label ≠ "" ∧ 0 < r.size ∧ r.decalTextureId ≠ Option.some ""

instance (r : SavedHighlightRegion) : Decidable (WellFormedRegion r) := by
  unfold WellFormedRegion
  infer_instance

/-- An empty viewer state used as the base of the concrete witnesses. -/
def baseState : ViewerState where
  savedRegions := []
  hiddenRegionIds := []
  occlusionQueries := []
  occlusionResults := []
  disposedDecals := []
  nextId := 10
  highlightShape := Option.some ⟨0, 0, 0⟩
  shapeVisible := true
  shapeBaseSize := 4
  shapeSizePercent := 50
  shapeType := ShapeType.sphere
  currentSeverity := Severity.high
  smoothCameraMode := false
  isCameraMoving := false
  occlusionFrameCounter := 0
  glReady := true
  cameraReady := true
  needsLabelUpdate := true
  cachedLabelPositions := []
  dimsWidth := 800
  dimsHeight := 600

/-- A cube region at the origin with size 2 (Scenario C of the spec). -/
def demoCubeRegion : SavedHighlightRegion where
  id := 1
  position := ⟨0, 0, 0⟩
  size := 2
  type := ShapeType.cube
  severity := Severity.high
  label := "Scratch"

/-- A real-time-mode state with a moving camera whose throttle counter is
about to reach the query frame. -/
def demoMovingState : ViewerState :=
  { baseState with
      savedRegions := [demoCubeRegion]
      isCameraMoving := true
      occlusionFrameCounter := 2 }

/-- A saved region owning a decal renderable (handle 7). -/
def demoDecalRegion : SavedHighlightRegion where
  id := 2
  position := ⟨5, 0, 0⟩
  size := 1
  type := ShapeType.sphere
  severity := Severity.medium
  label := "Dent"
  normal := Option.some ⟨0, 1, 0⟩
  decalTextureId := Option.some "heavy"
  decalMesh := Option.some 7

/-- A two-region store (ids 1 and 2, the second owning a decal). -/
def demoTwoRegionState : ViewerState :=
  { baseState with savedRegions := [demoCubeRegion, demoDecalRegion] }

/-- A payload region that fails the import size validation. -/
def demoBadSizeExported : ExportedRegion where
  id := 0
  label := "dent"
  severity := "high"
  type := "cube"
  size := 0
  position := Option.some ⟨0, 0, 0⟩

/-- A valid three-region import payload (ids 0, 1, 2, all below the demo
states' `nextId` of 10). -/
def demoImportPayload : RegionsExportData where
  version := 1
  exportedAt := "2024-01-01T00:00:00Z"
  regions :=
    [{ id := 0, label := "a", severity := "high", type := "cube",
       size := 1, position := Option.some ⟨0, 0, 0⟩ },
     { id := 1, label := "b", severity := "medium", type := "sphere",
       size := 2, position := Option.some ⟨1, 0, 0⟩,
       decalTextureId := Option.some "light", normal := Option.some ⟨0, 0, 1⟩ },
     { id := 2, label := "c", severity := "low", type := "none",
       size := 3, position := Option.some ⟨0, 2, 0⟩, notes := Option.some "n" }]

theorem findRegionLoop_isSome_iff (hidden : List Nat) (point : Vec3)
    (l : List SavedHighlightRegion) :
    (findRegionLoop hidden point l).isSome ↔ ∃ r ∈ l, RegionHit hidden point r := by
  induction l with
  | nil => simp [findRegionLoop]
  | cons r rest ih =>
    by_cases h1 : r.id ∈ hidden
    · simp only [findRegionLoop, if_pos h1, ih, List.mem_cons]
      constructor
      · rintro ⟨r', hr', hhit⟩
        exact ⟨r', Or.inr hr', hhit⟩
      · rintro ⟨r', hr' | hr', hhit⟩
        · exact absurd hhit (by simp [RegionHit, hr', h1])
        · exact ⟨r', hr', hhit⟩
    · by_cases h2 : r.type = ShapeType.none
      · simp only [findRegionLoop, if_neg h1, if_pos h2, ih, List.mem_cons]
        constructor
        · rintro ⟨r', hr', hhit⟩
          exact ⟨r', Or.inr hr', hhit⟩
        · rintro ⟨r', hr' | hr', hhit⟩
          · exact absurd hhit (by simp [RegionHit, hr', h2])
          · exact ⟨r', hr', hhit⟩
      · by_cases h3 : regionContains r point
        · simp only [findRegionLoop, if_neg h1, if_neg h2, if_pos h3, List.mem_cons]
          exact ⟨fun _ => ⟨r, Or.inl rfl, h1, h2, h3⟩, fun _ => rfl⟩
        · simp only [findRegionLoop, if_neg h1, if_neg h2, if_neg h3, ih, List.mem_cons]
          constructor
          · rintro ⟨r', hr', hhit⟩
            exact ⟨r', Or.inr hr', hhit⟩
          · rintro ⟨r', hr' | hr', hhit⟩
            · exact absurd hhit (by simp [RegionHit, hr', h3])
            · exact ⟨r', hr', hhit⟩

theorem findRegionLoop_eq_some (hidden : List Nat) (point : Vec3)
    (l : List SavedHighlightRegion) (n : Nat)
    (h : findRegionLoop hidden point l = Option.some n) :
    ∃ i, ∃ hi : i < l.length, (l.get ⟨i, hi⟩).id = n ∧
      RegionHit hidden point (l.get ⟨i, hi⟩) ∧
      ∀ r' ∈ l.take i, ¬ RegionHit hidden point r' := by
  induction l with
  | nil => simp [findRegionLoop] at h
  | cons r rest ih =>
    have step :
        (¬ RegionHit hidden point r ∧ findRegionLoop hidden point rest = Option.some n) ∨
        (RegionHit hidden point r ∧ r.id = n) := by
      by_cases h1 : r.id ∈ hidden
      · simp only [findRegionLoop, if_pos h1] at h
        exact Or.inl ⟨by simp [RegionHit, h1], h⟩
      · by_cases h2 : r.type = ShapeType.none
        · simp only [findRegionLoop, if_neg h1, if_pos h2] at h
          exact Or.inl ⟨by simp [RegionHit, h2], h⟩
        · by_cases h3 : regionContains r point
          · simp only [findRegionLoop, if_neg h1, if_neg h2, if_pos h3] at h
            exact Or.inr ⟨⟨h1, h2, h3⟩, by simpa using h⟩
          · simp only [findRegionLoop, if_neg h1, if_neg h2, if_neg h3] at h
            exact Or.inl ⟨by simp [RegionHit, h3], h⟩
    rcases step with ⟨hmiss, hrest⟩ | ⟨hhit, hid⟩
    · obtain ⟨i, hi, hid, hhit', hmin⟩ := ih hrest
      refine ⟨i + 1, by simpa using Nat.succ_lt_succ hi, by simpa using hid,
        by simpa using hhit', ?_⟩
      intro r' hr'
      rcases List.mem_cons.mp (by simpa using hr') with hr' | hr'
      · exact hr' ▸ hmiss
      · exact hmin r' hr'
    · exact ⟨0, by simp, hid, by simpa using hhit, by simp⟩

/-- **C1.** `findRegionAtPoint` returns a region id iff some non-hidden,
non-point-shaped saved region contains the point under its shape test
(cube: each coordinate of `point - position` strictly below `size/2` in
absolute value; sphere: Euclidean distance strictly below `size/2`), and
when it returns an id, that id belongs to the earliest-inserted such region
(every earlier region in store order is not a hit). -/
theorem c1_findRegionAtPoint (s : ViewerState) (point : Vec3) :
    ((findRegionAtPoint s point).isSome ↔
      ∃ r ∈ s.savedRegions, RegionHit s.hiddenRegionIds point r) ∧
    (∀ n, findRegionAtPoint s point = Option.some n →
      ∃ i, ∃ hi : i < s.savedRegions.length,
        (s.savedRegions.get ⟨i, hi⟩).id = n ∧
        RegionHit s.hiddenRegionIds point (s.savedRegions.get ⟨i, hi⟩) ∧
        ∀ r' ∈ s.savedRegions.take i, ¬ RegionHit s.hiddenRegionIds point r') := by
  exact ⟨findRegionLoop_isSome_iff s.hiddenRegionIds point s.savedRegions,
    fun n h => findRegionLoop_eq_some s.hiddenRegionIds point s.savedRegions n h⟩

/-- Witness for C1 at Scenario C: a cube region at the origin with size 2
contains `(0.9, 0.9, 0.9)` (so `findRegionAtPoint` yields a hit region)
but not `(1.1, 0, 0)`. -/
theorem c1_findRegionAtPoint_witness :
    (∃ r ∈ ({ baseState with savedRegions := [demoCubeRegion] } : ViewerState).savedRegions,
      RegionHit [] ⟨9 / 10, 9 / 10, 9 / 10⟩ r) ∧
    findRegionAtPoint { baseState with savedRegions := [demoCubeRegion] }
      ⟨11 / 10, 0, 0⟩ = Option.none :=
  ⟨(c1_findRegionAtPoint { baseState with savedRegions := [demoCubeRegion] }
      ⟨9 / 10, 9 / 10, 9 / 10⟩).1.mp
      (by norm_num [findRegionAtPoint, findRegionLoop, regionContains, cubeContains,
        jsAbs, Vec3.sub, baseState, demoCubeRegion] <;> decide),
    by norm_num [findRegionAtPoint, findRegionLoop, regionContains, cubeContains,
        jsAbs, Vec3.sub, baseState, demoCubeRegion] <;> decide⟩

/-- **C8.** The occlusion-query step never issues GPU queries in a
disallowed camera state: with smooth mode off no query starts while the
camera is not moving; with smooth mode on no query starts while the camera
is moving; and in real-time mode while moving, a query only starts when the
frame counter reaches `OCCLUSION_THROTTLE_FRAMES` (so at most every Nth
frame: the very next frame after a run never queries again). -/
theorem c8_occlusionGate (s : ViewerState) :
    (s.smoothCameraMode = false → s.isCameraMoving = false →
      (runOcclusionQueriesGate s).1 = false) ∧
    (s.smoothCameraMode = true → s.isCameraMoving = true →
      (runOcclusionQueriesGate s).1 = false) ∧
    (s.smoothCameraMode = false → s.isCameraMoving = true →
      (runOcclusionQueriesGate s).1 = true →
        occlusionThrottleFrames ≤ s.occlusionFrameCounter + 1 ∧
        (runOcclusionQueriesGate (runOcclusionQueriesGate s).2).1 = false) := by
  refine ⟨?_, ?_, ?_⟩
  · intro h1 h2
    simp [runOcclusionQueriesGate, h1, h2]
  · intro h1 h2
    simp [runOcclusionQueriesGate, h1, h2]
  · intro h1 h2 hrun
    by_cases hg : (!s.glReady || !s.cameraReady || s.savedRegions.isEmpty) = true
    · simp [runOcclusionQueriesGate, hg] at hrun
    · by_cases hc : s.occlusionFrameCounter + 1 < occlusionThrottleFrames
      · simp [runOcclusionQueriesGate, hg, h1, h2, hc] at hrun
      · refine ⟨by omega, ?_⟩
        have hst : (runOcclusionQueriesGate s).2 =
            { s with occlusionFrameCounter := 0 } := by
          simp [runOcclusionQueriesGate, hg, h1, h2, hc]
        rw [hst]
        simp [runOcclusionQueriesGate, hg, h1, h2, occlusionThrottleFrames]

/-- Witness for C8: in real-time mode with the counter at 2, the gate fires
(2 + 1 reaches the throttle of 3) and the immediately following frame does
not fire again. -/
theorem c8_occlusionGate_witness :
    occlusionThrottleFrames ≤ demoMovingState.occlusionFrameCounter + 1 ∧
    (runOcclusionQueriesGate (runOcclusionQueriesGate demoMovingState).2).1 = false :=
  (c8_occlusionGate demoMovingState).2.2 rfl rfl (by decide)

/-- **C4.** `saveCurrentRegion` returns no id and leaves the state (in
particular the saved-region list) untouched whenever no dynamic placement
region is visible (`!highlightShape || !shapeVisible`) or the label is
empty after trimming; when it returns an id it has appended exactly one new
region to the store. -/
theorem c4_saveCurrentRegion (s : ViewerState) (label : String)
    (dd : Option DefectEntry) (cp ct nrm : Option Vec3) (dti : Option String)
    (hto : Bool) (dres : Option Nat) :
    ((s.highlightShape = Option.none ∨ s.shapeVisible = false ∨ jsTrim label = "") →
      saveCurrentRegion s label dd cp ct nrm dti hto dres = (Option.none, s)) ∧
    (∀ n, (saveCurrentRegion s label dd cp ct nrm dti hto dres).1 = Option.some n →
      ∃ r, (saveCurrentRegion s label dd cp ct nrm dti hto dres).2.savedRegions =
        s.savedRegions ++ [r]) := by
  constructor
  · intro h
    rcases h with h | h | h
    · simp [saveCurrentRegion, h]
    · simp [saveCurrentRegion, h]
    · by_cases h1 : (s.highlightShape.isNone || !s.shapeVisible) = true
      · simp [saveCurrentRegion, h1]
      · simp [saveCurrentRegion, h1, h]
  · intro n h
    by_cases h1 : (s.highlightShape.isNone || !s.shapeVisible) = true
    · simp [saveCurrentRegion, h1] at h
    · by_cases h2 : jsTrim label = ""
      · simp [saveCurrentRegion, h1, h2] at h
      · unfold saveCurrentRegion
        rw [if_neg h1, if_neg h2]
        exact ⟨_, rfl⟩

/-- Witness for C4: saving with a whitespace-only label fails and keeps the
store; saving with label "Scratch" succeeds and appends one region. -/
theorem c4_saveCurrentRegion_witness :
    saveCurrentRegion baseState "   " Option.none Option.none Option.none
      Option.none Option.none false Option.none = (Option.none, baseState) ∧
    ∃ r, ((saveCurrentRegion baseState "Scratch" Option.none Option.none Option.none
      Option.none Option.none false Option.none).2).savedRegions =
        baseState.savedRegions ++ [r] :=
  ⟨(c4_saveCurrentRegion baseState "   " Option.none Option.none Option.none
      Option.none Option.none false Option.none).1 (Or.inr (Or.inr (by decide))),
    (c4_saveCurrentRegion baseState "Scratch" Option.none Option.none Option.none
      Option.none Option.none false Option.none).2 10 (by decide)⟩

theorem savedRegionOf_label (s : ViewerState) (label : String)
    (dd : Option DefectEntry) (cp ct nrm : Option Vec3) (dti : Option String)
    (hto : Bool) (dres : Option Nat) :
    (savedRegionOf s label dd cp ct nrm dti hto dres).label = jsTrim label := by
  simp only [savedRegionOf]
  split <;> rfl

theorem getRegions_map_label (s : ViewerState) :
    (getRegions s).map RegionInfo.label = s.savedRegions.map SavedHighlightRegion.label := by
  simp [getRegions, List.map_map]

theorem exportRegions_map_label (s : ViewerState) (now : String) :
    ((exportRegions s now).regions).map ExportedRegion.label =
      s.savedRegions.map SavedHighlightRegion.label := by
  simp [exportRegions, exportRegion, List.map_map]

theorem saveCurrentRegion_snd (s : ViewerState) (label : String)
    (dd : Option DefectEntry) (cp ct nrm : Option Vec3) (dti : Option String)
    (hto : Bool) (dres : Option Nat)
    (h1 : ¬(s.highlightShape.isNone || !s.shapeVisible) = true)
    (h2 : ¬jsTrim label = "") :
    (saveCurrentRegion s label dd cp ct nrm dti hto dres).2 =
      { s with nextId := s.nextId + 1
               savedRegions :=
                 s.savedRegions ++ [savedRegionOf s label dd cp ct nrm dti hto dres]
               needsLabelUpdate := true } := by
  unfold saveCurrentRegion
  rw [if_neg h1, if_neg h2]
  rfl

/-- **C10.** A successful `saveCurrentRegion` stores the input label with
leading and trailing whitespace removed — in the appended region itself and
in everything reported from it by `getRegions` and `exportRegions` — not
the raw input string. -/
theorem c10_saveCurrentRegion_trims (s : ViewerState) (label : String)
    (dd : Option DefectEntry) (cp ct nrm : Option Vec3) (dti : Option String)
    (hto : Bool) (dres : Option Nat) (n : Nat)
    (h : (saveCurrentRegion s label dd cp ct nrm dti hto dres).1 = Option.some n) :
    ∃ r, (saveCurrentRegion s label dd cp ct nrm dti hto dres).2.savedRegions =
        s.savedRegions ++ [r] ∧
      r.label = jsTrim label ∧
      (getRegions (saveCurrentRegion s label dd cp ct nrm dti hto dres).2).map
          RegionInfo.label = (getRegions s).map RegionInfo.label ++ [jsTrim label] ∧
      ∀ t, ((exportRegions (saveCurrentRegion s label dd cp ct nrm dti hto dres).2 t).regions).map
          ExportedRegion.label =
        ((exportRegions s t).regions).map ExportedRegion.label ++ [jsTrim label] := by
  by_cases h1 : (s.highlightShape.isNone || !s.shapeVisible) = true
  · simp [saveCurrentRegion, h1] at h
  · by_cases h2 : jsTrim label = ""
    · simp [saveCurrentRegion, h1, h2] at h
    · have hs2 := saveCurrentRegion_snd s label dd cp ct nrm dti hto dres h1 h2
      refine ⟨savedRegionOf s label dd cp ct nrm dti hto dres, ?_, ?_, ?_, ?_⟩
      · rw [hs2]
      · exact savedRegionOf_label s label dd cp ct nrm dti hto dres
      · rw [hs2, getRegions_map_label, getRegions_map_label]
        simp [savedRegionOf_label]
      · intro t
        rw [hs2, exportRegions_map_label, exportRegions_map_label]
        simp [savedRegionOf_label]

/-- Witness for C10: saving with label `"  Scratch  "` succeeds and the
stored label is the trimmed `"Scratch"`. -/
theorem c10_saveCurrentRegion_trims_witness :
    jsTrim "  Scratch  " = "Scratch" ∧
    ∃ r, (saveCurrentRegion baseState "  Scratch  " Option.none Option.none Option.none
        Option.none Option.none false Option.none).2.savedRegions =
        baseState.savedRegions ++ [r] ∧
      r.label = jsTrim "  Scratch  " ∧
      (getRegions (saveCurrentRegion baseState "  Scratch  " Option.none Option.none
          Option.none Option.none Option.none false Option.none).2).map
          RegionInfo.label = (getRegions baseState).map RegionInfo.label ++
            [jsTrim "  Scratch  "] ∧
      ∀ t, ((exportRegions (saveCurrentRegion baseState "  Scratch  " Option.none
          Option.none Option.none Option.none Option.none false Option.none).2 t).regions).map
          ExportedRegion.label =
        ((exportRegions baseState t).regions).map ExportedRegion.label ++
          [jsTrim "  Scratch  "] :=
  ⟨by decide,
    c10_saveCurrentRegion_trims baseState "  Scratch  " Option.none Option.none
      Option.none Option.none Option.none false Option.none 10 (by decide)⟩

theorem firstInvalid_eq_none (es : List ExportedRegion) :
    firstInvalid es = Option.none ↔ ∀ e ∈ es, regionValidationError e = Option.none := by
  induction es with
  | nil => simp [firstInvalid]
  | cons e rest ih =>
    cases h : regionValidationError e with
    | none => simp [firstInvalid, h, ih]
    | some msg =>
      simp only [firstInvalid, h]
      constructor
      · intro hc
        exact absurd hc (by simp)
      · intro hall
        exact absurd (hall e (by simp)) (by simp [h])

/-- **C2.** `importRegions` rejects the whole batch with an error and
performs no mutation at all to the existing store whenever the payload's
version differs from 1 or any region in the payload fails validation
(empty/missing label, severity outside the fixed set, shape outside the
fixed set, non-positive size, malformed position). -/
theorem c2_importRegions_rejects (s : ViewerState) (data : RegionsExportData)
    (replace : Bool) (mk : SavedHighlightRegion → Option Nat)
    (h : data.version ≠ 1 ∨ ∃ e ∈ data.regions, regionValidationError e ≠ Option.none) :
    ∃ msg, importRegions s data replace mk = (s, Except.error msg) := by
  by_cases hv : data.version = 1
  · rcases h with h | ⟨e, he, hbad⟩
    · exact absurd hv h
    · have hne : firstInvalid data.regions ≠ Option.none := by
        intro hnone
        exact hbad ((firstInvalid_eq_none data.regions).mp hnone e he)
      cases hmsg : firstInvalid data.regions with
      | none => exact absurd hmsg hne
      | some msg => exact ⟨msg, by simp [importRegions, hv, hmsg]⟩
  · exact ⟨"Unsupported export version", by simp [importRegions, hv]⟩

/-- Witness for C2: importing a payload with version 2 (into a one-region
store) fails and returns the store untouched, and so does importing a
version-1 payload whose single region has size 0. -/
theorem c2_importRegions_rejects_witness :
    (∃ msg, importRegions demoMovingState
      { version := 2, exportedAt := "t", regions := [] } true
      (fun _ => Option.none) = (demoMovingState, Except.error msg)) ∧
    (∃ msg, importRegions demoMovingState
      { version := 1, exportedAt := "t", regions := [demoBadSizeExported] } true
      (fun _ => Option.none) = (demoMovingState, Except.error msg)) :=
  ⟨c2_importRegions_rejects demoMovingState
      { version := 2, exportedAt := "t", regions := [] } true (fun _ => Option.none)
      (Or.inl (by decide)),
    c2_importRegions_rejects demoMovingState
      { version := 1, exportedAt := "t", regions := [demoBadSizeExported] } true
      (fun _ => Option.none)
      (Or.inr ⟨demoBadSizeExported, by simp,
        by norm_num [regionValidationError, severityOfString, shapeTypeOfString,
          demoBadSizeExported] <;> decide⟩)⟩

theorem importRegionsList_length (n : Nat) (es : List ExportedRegion) :
    (importRegionsList n es).length = es.length := by
  induction es generalizing n with
  | nil => rfl
  | cons e rest ih => simp [importRegionsList, ih]

theorem importRegionsList_map_id (n : Nat) (es : List ExportedRegion) :
    (importRegionsList n es).map SavedHighlightRegion.id = List.range' n es.length := by
  induction es generalizing n with
  | nil => rfl
  | cons e rest ih =>
    simp only [importRegionsList, List.map_cons, ih, List.length_cons, List.range'_succ]
    rfl

theorem importRegionsList_map_strip (n : Nat) (es : List ExportedRegion) :
    (importRegionsList n es).map stripVolatile = es.map importedCore := by
  induction es generalizing n with
  | nil => rfl
  | cons e rest ih =>
    simp only [importRegionsList, List.map_cons, ih]
    rfl

theorem updateDecalMeshR_id (mk : SavedHighlightRegion → Option Nat)
    (r : SavedHighlightRegion) (log : List Nat) :
    ((updateDecalMeshR mk r log).1).id = r.id := by
  simp only [updateDecalMeshR]
  split <;> rfl

theorem updateDecalMeshR_strip (mk : SavedHighlightRegion → Option Nat)
    (r : SavedHighlightRegion) (log : List Nat) :
    stripVolatile (updateDecalMeshR mk r log).1 = stripVolatile r := by
  simp only [updateDecalMeshR]
  split <;> rfl

theorem decalPass_fst_length (mk : SavedHighlightRegion → Option Nat)
    (l : List SavedHighlightRegion) (log : List Nat) :
    ((decalPass mk l log).1).length = l.length := by
  induction l generalizing log with
  | nil => rfl
  | cons r rest ih =>
    simp only [decalPass]
    split <;> simp [ih]

theorem decalPass_map_id (mk : SavedHighlightRegion → Option Nat)
    (l : List SavedHighlightRegion) (log : List Nat) :
    ((decalPass mk l log).1).map SavedHighlightRegion.id =
      l.map SavedHighlightRegion.id := by
  induction l generalizing log with
  | nil => rfl
  | cons r rest ih =>
    simp only [decalPass]
    split <;> simp [ih, updateDecalMeshR_id]

theorem decalPass_fst_strip (mk : SavedHighlightRegion → Option Nat)
    (l : List SavedHighlightRegion) (log : List Nat) :
    ((decalPass mk l log).1).map stripVolatile = l.map stripVolatile := by
  induction l generalizing log with
  | nil => rfl
  | cons r rest ih =>
    simp only [decalPass]
    split <;> simp [ih, updateDecalMeshR_strip]

/-- **C7.** A successful `importRegions` in replace mode reports the payload
count, leaves the store holding exactly one region per payload entry (every
previously stored region is gone), with the persistent field values taken
from the payload, and assigns the freshly generated ids
`nextId, nextId+1, ...` — which are never ids carried in the payload (the
hypothesis `hids` is the counter model's rendering of `crypto.randomUUID`
never colliding with an id already handed out). -/
theorem c7_importRegions_replace (s : ViewerState) (data : RegionsExportData)
    (mk : SavedHighlightRegion → Option Nat)
    (hv : data.version = 1) (hval : firstInvalid data.regions = Option.none)
    (hids : ∀ e ∈ data.regions, e.id < s.nextId) :
    (importRegions s data true mk).2 = Except.ok data.regions.length ∧
    (importRegions s data true mk).1.savedRegions.length = data.regions.length ∧
    (importRegions s data true mk).1.savedRegions.map SavedHighlightRegion.id =
      List.range' s.nextId data.regions.length ∧
    (∀ r' ∈ (importRegions s data true mk).1.savedRegions,
      ∀ e ∈ data.regions, r'.id ≠ e.id) ∧
    (importRegions s data true mk).1.savedRegions.map stripVolatile =
      data.regions.map importedCore := by
  have hmap : (importRegions s data true mk).1.savedRegions.map SavedHighlightRegion.id =
      List.range' s.nextId data.regions.length := by
    simp only [importRegions, hv, hval]
    simp [decalPass_map_id, importRegionsList_map_id]
  refine ⟨?_, ?_, hmap, ?_, ?_⟩
  · simp [importRegions, hv, hval]
  · simp only [importRegions, hv, hval]
    simp [decalPass_fst_length, importRegionsList_length]
  · intro r' hr' e he
    have : r'.id ∈ List.range' s.nextId data.regions.length := by
      rw [← hmap]
      exact List.mem_map_of_mem SavedHighlightRegion.id hr'
    have hge : s.nextId ≤ r'.id := (List.mem_range'_1.mp this).1
    have hlt := hids e he
    omega
  · simp only [importRegions, hv, hval]
    simp [decalPass_fst_strip, importRegionsList_map_strip]

/-- Witness for C7 at Scenario B: importing 3 valid regions in replace mode
into a store of 2 yields a report of 3, exactly 3 stored regions, fresh ids
10, 11, 12, none of which appears in the payload. -/
theorem c7_importRegions_replace_witness :
    (importRegions demoTwoRegionState demoImportPayload true (fun _ => Option.none)).2 =
      Except.ok demoImportPayload.regions.length ∧
    (importRegions demoTwoRegionState demoImportPayload true
        (fun _ => Option.none)).1.savedRegions.length =
      demoImportPayload.regions.length ∧
    (importRegions demoTwoRegionState demoImportPayload true
        (fun _ => Option.none)).1.savedRegions.map SavedHighlightRegion.id =
      List.range' demoTwoRegionState.nextId demoImportPayload.regions.length ∧
    (∀ r' ∈ (importRegions demoTwoRegionState demoImportPayload true
        (fun _ => Option.none)).1.savedRegions,
      ∀ e ∈ demoImportPayload.regions, r'.id ≠ e.id) ∧
    (importRegions demoTwoRegionState demoImportPayload true
        (fun _ => Option.none)).1.savedRegions.map stripVolatile =
      demoImportPayload.regions.map importedCore :=
  c7_importRegions_replace demoTwoRegionState demoImportPayload (fun _ => Option.none)
    (by decide) (by decide) (by decide)

theorem severityOfString_toString (sev : Severity) :
    severityOfString (severityToString sev) = Option.some sev := by
  cases sev <;> rfl

theorem shapeTypeOfString_toString (t : ShapeType) :
    shapeTypeOfString (shapeTypeToString t) = Option.some t := by
  cases t <;> rfl

theorem regionValidationError_exportRegion (r : SavedHighlightRegion)
    (h : WellFormedRegion r) : regionValidationError (exportRegion r) = Option.none := by
  rcases h with ⟨hl, hs, -⟩
  simp [regionValidationError, exportRegion, hl, severityOfString_toString,
    shapeTypeOfString_toString, not_le.mpr hs]

theorem truthyStr_idem_of_ne_empty (o : Option String) (h : o ≠ Option.some "") :
    truthyStr (truthyStr o) = o := by
  cases ho : o with
  | none => rfl
  | some t =>
    have ht : ¬t = "" := fun ht => h (by rw [ho, ht])
    simp [truthyStr, ht]

theorem importedCore_exportRegion (r : SavedHighlightRegion)
    (h : r.decalTextureId ≠ Option.some "") :
    importedCore (exportRegion r) = stripVolatile r := by
  simp [importedCore, importOne, exportRegion, stripVolatile,
    severityOfString_toString, shapeTypeOfString_toString, truthyStr_idem_of_ne_empty r.decalTextureId h]

theorem importRegions_ok_snd (s : ViewerState) (data : RegionsExportData)
    (replace : Bool) (mk : SavedHighlightRegion → Option Nat)
    (hv : data.version = 1) (hval : firstInvalid data.regions = Option.none) :
    (importRegions s data replace mk).2 = Except.ok data.regions.length := by
  simp [importRegions, hv, hval]

theorem importRegions_replace_savedRegions (s : ViewerState) (data : RegionsExportData)
    (mk : SavedHighlightRegion → Option Nat)
    (hv : data.version = 1) (hval : firstInvalid data.regions = Option.none) :
    (importRegions s data true mk).1.savedRegions =
      (decalPass mk (importRegionsList s.nextId data.regions) s.disposedDecals).1 := by
  simp [importRegions, hv, hval]

/-- **C3.** Exporting the store and re-importing the result in replace mode
succeeds (given the §3 data-model constraints on the stored regions),
reproduces every region's persistent field values — label, severity, shape,
size, position, defect reference, camera snapshot, surface normal, decal
kind, notes, evidence — in order, and differs only in the freshly assigned
ids (and the never-serialized decal renderable handle, which
`stripVolatile` normalizes away on both sides). -/
theorem c3_export_import_roundtrip (s : ViewerState) (now : String)
    (mk : SavedHighlightRegion → Option Nat)
    (h : ∀ r ∈ s.savedRegions, WellFormedRegion r) :
    (importRegions s (exportRegions s now) true mk).2 =
      Except.ok s.savedRegions.length ∧
    (importRegions s (exportRegions s now) true mk).1.savedRegions.map stripVolatile =
      s.savedRegions.map stripVolatile ∧
    (importRegions s (exportRegions s now) true mk).1.savedRegions.map
      SavedHighlightRegion.id = List.range' s.nextId s.savedRegions.length := by
  have hv : (exportRegions s now).version = 1 := rfl
  have hval : firstInvalid (exportRegions s now).regions = Option.none := by
    rw [firstInvalid_eq_none]
    intro e he
    simp only [exportRegions, List.mem_map] at he
    obtain ⟨r, hr, rfl⟩ := he
    exact regionValidationError_exportRegion r (h r hr)
  have hsaved := importRegions_replace_savedRegions s (exportRegions s now) mk hv hval
  refine ⟨?_, ?_, ?_⟩
  · rw [importRegions_ok_snd s (exportRegions s now) true mk hv hval]
    simp [exportRegions]
  · rw [hsaved, decalPass_fst_strip, importRegionsList_map_strip]
    simp only [exportRegions, List.map_map]
    exact List.map_congr_left fun r hr => importedCore_exportRegion r (h r hr).2.2
  · rw [hsaved, decalPass_map_id, importRegionsList_map_id]
    simp [exportRegions]

/-- Witness for C3: round-tripping a concrete two-region store (one region
owning a decal) preserves both regions' persistent fields and assigns the
fresh ids 10 and 11. -/
theorem c3_export_import_roundtrip_witness :
    (importRegions demoTwoRegionState (exportRegions demoTwoRegionState "t") true
        (fun _ => Option.none)).2 =
      Except.ok demoTwoRegionState.savedRegions.length ∧
    (importRegions demoTwoRegionState (exportRegions demoTwoRegionState "t") true
        (fun _ => Option.none)).1.savedRegions.map stripVolatile =
      demoTwoRegionState.savedRegions.map stripVolatile ∧
    (importRegions demoTwoRegionState (exportRegions demoTwoRegionState "t") true
        (fun _ => Option.none)).1.savedRegions.map SavedHighlightRegion.id =
      List.range' demoTwoRegionState.nextId demoTwoRegionState.savedRegions.length :=
  c3_export_import_roundtrip demoTwoRegionState "t" (fun _ => Option.none) (by decide)

theorem regionValidationError_eq_none (e : ExportedRegion) :
    regionValidationError e = Option.none ↔
      (¬e.label = "" ∧ ¬(severityOfString e.severity).isNone = true ∧
        ¬(shapeTypeOfString e.type).isNone = true ∧ ¬e.size ≤ 0 ∧
        ¬e.position.isNone = true) := by
  unfold regionValidationError
  split_ifs with h1 h2 h3 h4 h5 <;> simp_all

theorem importRegions_ok_inv (s : ViewerState) (data : RegionsExportData)
    (replace : Bool) (mk : SavedHighlightRegion → Option Nat) (k : Nat)
    (h : (importRegions s data replace mk).2 = Except.ok k) :
    data.version = 1 ∧ firstInvalid data.regions = Option.none := by
  by_cases hv : data.version = 1
  · cases hval : firstInvalid data.regions with
    | some msg => simp [importRegions, hv, hval] at h
    | none => exact ⟨hv, rfl⟩
  · simp [importRegions, hv] at h

theorem importRegions_savedRegions (s : ViewerState) (data : RegionsExportData)
    (replace : Bool) (mk : SavedHighlightRegion → Option Nat)
    (hv : data.version = 1) (hval : firstInvalid data.regions = Option.none) :
    (importRegions s data replace mk).1.savedRegions =
      (decalPass mk ((if replace then [] else s.savedRegions) ++
        importRegionsList s.nextId data.regions) s.disposedDecals).1 := by
  cases replace <;> simp [importRegions, hv, hval]

theorem updateDecalMeshR_size (mk : SavedHighlightRegion → Option Nat)
    (r : SavedHighlightRegion) (log : List Nat) :
    ((updateDecalMeshR mk r log).1).size = r.size := by
  simp only [updateDecalMeshR]
  split <;> rfl

theorem decalPass_map_size (mk : SavedHighlightRegion → Option Nat)
    (l : List SavedHighlightRegion) (log : List Nat) :
    ((decalPass mk l log).1).map SavedHighlightRegion.size =
      l.map SavedHighlightRegion.size := by
  induction l generalizing log with
  | nil => rfl
  | cons r rest ih =>
    simp only [decalPass]
    split <;> simp [ih, updateDecalMeshR_size]

theorem importRegionsList_map_size (n : Nat) (es : List ExportedRegion) :
    (importRegionsList n es).map SavedHighlightRegion.size =
      es.map ExportedRegion.size := by
  induction es generalizing n with
  | nil => rfl
  | cons e rest ih =>
    simp only [importRegionsList, List.map_cons, ih]
    rfl

theorem patchLabel_size (u : RegionUpdates) (r : SavedHighlightRegion) :
    (patchLabel u r).size = r.size := by
  cases h : u.label <;> simp [patchLabel, h]

theorem patchSeverity_size (u : RegionUpdates) (r : SavedHighlightRegion) :
    (patchSeverity u r).size = r.size := by
  cases h : u.severity <;> simp [patchSeverity, h]

theorem patchType_size (u : RegionUpdates) (r : SavedHighlightRegion) :
    (patchType u r).size = r.size := by
  cases h : u.type <;> simp [patchType, h]

theorem patchSize_fst_size (mk : SavedHighlightRegion → Option Nat) (u : RegionUpdates)
    (r : SavedHighlightRegion) (log : List Nat) :
    ((patchSize mk u r log).1).size =
      match u.size with
      | Option.some v => v
      | Option.none => r.size := by
  cases h : u.size with
  | none => simp [patchSize, h]
  | some v =>
    simp only [patchSize, h]
    split
    · simp [updateDecalMeshR_size]
    · rfl

theorem patchDecalTexture_fst_size (mk : SavedHighlightRegion → Option Nat)
    (u : RegionUpdates) (r : SavedHighlightRegion) (log : List Nat) :
    ((patchDecalTexture mk u r log).1).size = r.size := by
  cases h : u.decalTextureId with
  | none => simp [patchDecalTexture, h]
  | some v => simp [patchDecalTexture, h, updateDecalMeshR_size]

theorem patchDefectData_size (u : RegionUpdates) (r : SavedHighlightRegion) :
    (patchDefectData u r).size = r.size := by
  cases h : u.defectData <;> simp [patchDefectData, h]

theorem patchCameraPosition_size (u : RegionUpdates) (r : SavedHighlightRegion) :
    (patchCameraPosition u r).size = r.size := by
  cases h : u.cameraPosition <;> simp [patchCameraPosition, h]

theorem patchCameraTarget_size (u : RegionUpdates) (r : SavedHighlightRegion) :
    (patchCameraTarget u r).size = r.size := by
  cases h : u.cameraTarget <;> simp [patchCameraTarget, h]

theorem patchNotes_size (u : RegionUpdates) (r : SavedHighlightRegion) :
    (patchNotes u r).size = r.size := by
  cases h : u.notes <;> simp [patchNotes, h]

theorem patchEvidence_size (u : RegionUpdates) (r : SavedHighlightRegion) :
    (patchEvidence u r).size = r.size := by
  cases h : u.evidence <;> simp [patchEvidence, h]

theorem applyUpdates_size (mk : SavedHighlightRegion → Option Nat) (u : RegionUpdates)
    (r : SavedHighlightRegion) (log : List Nat) :
    ((applyUpdates mk u r log).1).size =
      match u.size with
      | Option.some v => v
      | Option.none => r.size := by
  simp only [applyUpdates, patchEvidence_size, patchNotes_size, patchCameraTarget_size,
    patchCameraPosition_size, patchDefectData_size, patchDecalTexture_fst_size,
    patchSize_fst_size, patchType_size, patchSeverity_size, patchLabel_size]

theorem updateLoop_sizes (mk : SavedHighlightRegion → Option Nat) (u : RegionUpdates)
    (n : Nat) (l : List SavedHighlightRegion) :
    ∀ (log : List Nat) (l' : List SavedHighlightRegion) (log' : List Nat),
      updateLoop mk u n l log = Option.some (l', log') →
      ∀ x ∈ l', x.size ∈ l.map SavedHighlightRegion.size ∨
        ∃ v, u.size = Option.some v ∧ x.size = v := by
  induction l with
  | nil =>
    intro log l' log' h
    simp [updateLoop] at h
  | cons r rest ih =>
    intro log l' log' h
    simp only [updateLoop] at h
    by_cases hid : r.id = n
    · rw [if_pos hid] at h
      obtain ⟨hl, -⟩ := Prod.mk.injEq _ _ _ _ ▸ Option.some.inj h
      intro x hx
      rw [← hl] at hx
      rcases List.mem_cons.mp hx with hx | hx
      · cases hu : u.size with
        | none =>
          left
          have := applyUpdates_size mk u r log
          rw [hu] at this
          simp only [hx, this, List.map_cons, List.mem_cons]
          exact Or.inl trivial
        | some v =>
          right
          have := applyUpdates_size mk u r log
          rw [hu] at this
          exact ⟨v, rfl, by rw [hx]; exact this⟩
      · left
        simp only [List.map_cons, List.mem_cons]
        exact Or.inr (List.mem_map_of_mem SavedHighlightRegion.size hx)
    · rw [if_neg hid] at h
      cases hrec : updateLoop mk u n rest log with
      | none => rw [hrec] at h; simp at h
      | some p =>
        rw [hrec] at h
        obtain ⟨hl, -⟩ := Prod.mk.injEq _ _ _ _ ▸ Option.some.inj h
        intro x hx
        rw [← hl] at hx
        rcases List.mem_cons.mp hx with hx | hx
        · left
          simp only [hx, List.map_cons, List.mem_cons]
          exact Or.inl trivial
        · rcases ih log p.1 p.2 (by rw [hrec]) x hx with hmem | hv
          · left
            simp only [List.map_cons, List.mem_cons]
            exact Or.inr hmem
          · exact Or.inr hv

/-- **C5** (amended).  Regions entering the store through `importRegions`
always have positive size (validation enforces it), and `updateRegion`
keeps all sizes positive provided any size it applies is itself positive —
but `updateRegion` performs no validation of its own, so the blanket
claim that every store operation preserves `size > 0` for an arbitrary
numeric size field fails (see the counterexample). -/
theorem c5_size_positive_amended (s : ViewerState)
    (mk : SavedHighlightRegion → Option Nat)
    (hall : ∀ r ∈ s.savedRegions, 0 < r.size) :
    (∀ data replace k, (importRegions s data replace mk).2 = Except.ok k →
      ∀ r ∈ (importRegions s data replace mk).1.savedRegions, 0 < r.size) ∧
    (∀ n u, (∀ v, u.size = Option.some v → 0 < v) →
      ∀ r ∈ (updateRegion s n u mk).2.savedRegions, 0 < r.size) := by
  constructor
  · intro data replace k hok r hr
    obtain ⟨hv, hval⟩ := importRegions_ok_inv s data replace mk k hok
    have hmem : r.size ∈ ((importRegions s data replace mk).1.savedRegions).map
        SavedHighlightRegion.size :=
      List.mem_map_of_mem SavedHighlightRegion.size hr
    rw [importRegions_savedRegions s data replace mk hv hval, decalPass_map_size,
      List.map_append, importRegionsList_map_size] at hmem
    rcases List.mem_append.mp hmem with hmem | hmem
    · have : r.size ∈ s.savedRegions.map SavedHighlightRegion.size := by
        cases replace <;> simp_all
      obtain ⟨r0, hr0, he⟩ := List.mem_map.mp this
      rw [← he]
      exact hall r0 hr0
    · obtain ⟨e, he, hee⟩ := List.mem_map.mp hmem
      rw [← hee]
      have := (firstInvalid_eq_none data.regions).mp hval e he
      exact not_le.mp ((regionValidationError_eq_none e).mp this).2.2.2.1
  · intro n u hu r hr
    unfold updateRegion at hr
    cases hloop : updateLoop mk u n s.savedRegions s.disposedDecals with
    | none =>
      rw [hloop] at hr
      exact hall r hr
    | some p =>
      rw [hloop] at hr
      simp only at hr
      rcases updateLoop_sizes mk u n s.savedRegions s.disposedDecals p.1 p.2
          (by rw [hloop]) r hr with hmem | ⟨v, hv, he⟩
      · obtain ⟨r0, hr0, he⟩ := List.mem_map.mp hmem
        rw [← he]
        exact hall r0 hr0
      · rw [he]
        exact hu v hv

/-- Counterexample for C5 as stated: on a store whose regions all have
positive size, `updateRegion` with the numeric size field `-1` succeeds and
leaves a region of non-positive size in the store. -/
theorem c5_counterexample :
    (∀ r ∈ demoTwoRegionState.savedRegions, 0 < r.size) ∧
    (updateRegion demoTwoRegionState 1 { size := Option.some (-1) }
      (fun _ => Option.none)).1 = true ∧
    ∃ r ∈ (updateRegion demoTwoRegionState 1 { size := Option.some (-1) }
      (fun _ => Option.none)).2.savedRegions, ¬(0 < r.size) := by
  decide

/-- Witness for C5 (amended): updating a region of the two-region demo
store with the positive size 5 keeps the (updated) first stored region's
size positive. -/
theorem c5_size_positive_amended_witness :
    0 < ((updateRegion demoTwoRegionState 1 { size := Option.some 5 }
      (fun _ => Option.none)).2.savedRegions.getD 0 demoCubeRegion).size :=
  (c5_size_positive_amended demoTwoRegionState (fun _ => Option.none) (by decide)).2
    1 { size := Option.some 5 } (fun v hv => by cases hv; decide)
    ((updateRegion demoTwoRegionState 1 { size := Option.some 5 }
      (fun _ => Option.none)).2.savedRegions.getD 0 demoCubeRegion) (by decide)

theorem getRegions_map_id (s : ViewerState) :
    (getRegions s).map RegionInfo.id = s.savedRegions.map SavedHighlightRegion.id := by
  simp [getRegions, List.map_map]

theorem deleteLoop_eq_none (n : Nat) (l : List SavedHighlightRegion)
    (h : n ∉ l.map SavedHighlightRegion.id) : deleteLoop n l = Option.none := by
  induction l with
  | nil => rfl
  | cons r rest ih =>
    simp only [List.map_cons, List.mem_cons, not_or] at h
    have hr : ¬r.id = n := fun he => h.1 he.symm
    simp only [deleteLoop, if_neg hr, ih h.2]

theorem deleteLoop_isSome (n : Nat) (l : List SavedHighlightRegion)
    (h : n ∈ l.map SavedHighlightRegion.id) : (deleteLoop n l).isSome = true := by
  induction l with
  | nil => simp at h
  | cons r rest ih =>
    by_cases hr : r.id = n
    · simp [deleteLoop, hr]
    · simp only [List.map_cons, List.mem_cons] at h
      rcases h with h | h
      · exact absurd h.symm hr
      · have hrec := ih h
        simp only [deleteLoop, if_neg hr]
        cases hsome : deleteLoop n rest with
        | none => rw [hsome] at hrec; simp at hrec
        | some p => obtain ⟨x, rest1⟩ := p; simp

theorem deleteLoop_some_spec (n : Nat) (l : List SavedHighlightRegion) :
    ∀ x rest, deleteLoop n l = Option.some (x, rest) →
      x.id = n ∧ ∃ pre post, l = pre ++ x :: post ∧ rest = pre ++ post ∧
        n ∉ pre.map SavedHighlightRegion.id := by
  induction l with
  | nil => intro x rest h; simp [deleteLoop] at h
  | cons r rest0 ih =>
    intro x rest h
    simp only [deleteLoop] at h
    by_cases hr : r.id = n
    · rw [if_pos hr] at h
      obtain ⟨hx, hrest⟩ := Prod.mk.injEq _ _ _ _ ▸ Option.some.inj h
      subst hx
      exact ⟨hr, [], rest0, rfl, hrest.symm, by simp⟩
    · rw [if_neg hr] at h
      cases hrec : deleteLoop n rest0 with
      | none => rw [hrec] at h; simp at h
      | some p =>
        obtain ⟨y, rest1⟩ := p
        rw [hrec] at h
        simp only at h
        obtain ⟨hx, hrest⟩ := Prod.mk.injEq _ _ _ _ ▸ Option.some.inj h
        obtain ⟨hid, pre, post, hl, hr1, hpre⟩ := ih y rest1 hrec
        subst hx
        refine ⟨hid, r :: pre, post, by rw [hl]; rfl, ?_, ?_⟩
        · rw [← hrest, hr1]
          rfl
        · simp only [List.map_cons, List.mem_cons, not_or]
          exact ⟨fun he => hr he.symm, hpre⟩

/-- **C9.** For an id present in the store (ids being unique and a GL
context present), `deleteRegion` returns `true`, removes that region from
subsequent `getRegions()` output, records the region's decal renderable (if
it owns one) as disposed, and clears the per-region occlusion query and
cached occlusion result state; for an unknown id it returns `false` and
changes nothing. -/
theorem c9_deleteRegion (s : ViewerState) (n : Nat)
    (hnd : (s.savedRegions.map SavedHighlightRegion.id).Nodup)
    (hgl : s.glReady = true) :
    (n ∈ s.savedRegions.map SavedHighlightRegion.id →
      (deleteRegion s n).1 = true ∧
      (∀ info ∈ getRegions (deleteRegion s n).2, info.id ≠ n) ∧
      (deleteRegion s n).2.occlusionQueries = [] ∧
      (deleteRegion s n).2.occlusionResults = [] ∧
      (∀ r ∈ s.savedRegions, r.id = n → ∀ hdl, r.decalMesh = Option.some hdl →
        hdl ∈ (deleteRegion s n).2.disposedDecals)) ∧
    (n ∉ s.savedRegions.map SavedHighlightRegion.id →
      deleteRegion s n = (false, s)) := by
  constructor
  · intro hmem
    have hsome := deleteLoop_isSome n s.savedRegions hmem
    cases hp : deleteLoop n s.savedRegions with
    | none => rw [hp] at hsome; simp at hsome
    | some p =>
      obtain ⟨x, remaining⟩ := p
      obtain ⟨hid, pre, post, hl, hrest, hpre⟩ :=
        deleteLoop_some_spec n s.savedRegions x remaining hp
      have hnot : n ∉ remaining.map SavedHighlightRegion.id := by
        have hmap : s.savedRegions.map SavedHighlightRegion.id =
            pre.map SavedHighlightRegion.id ++ x.id :: post.map SavedHighlightRegion.id := by
          rw [hl]; simp
        rw [hmap] at hnd
        have hpost : n ∉ post.map SavedHighlightRegion.id := by
          intro hc
          have := List.Nodup.of_append_right hnd
          rw [hid] at this
          exact (List.nodup_cons.mp this).1 hc
        rw [hrest]
        simp only [List.map_append, List.mem_append, not_or]
        exact ⟨hpre, hpost⟩
      refine ⟨?_, ?_, ?_, ?_, ?_⟩
      · simp [deleteRegion, hp]
      · intro info hinfo
        have : info.id ∈ (getRegions (deleteRegion s n).2).map RegionInfo.id :=
          List.mem_map_of_mem RegionInfo.id hinfo
        rw [getRegions_map_id] at this
        have hsr : (deleteRegion s n).2.savedRegions = remaining := by
          simp [deleteRegion, hp]
        rw [hsr] at this
        intro he
        rw [he] at this
        exact hnot this
      · simp [deleteRegion, hp, hgl]
      · simp [deleteRegion, hp, hgl]
      · intro r hr hrid hdl hdecal
        have hrp : r = x := by
          rw [hl] at hr hnd
          rcases List.mem_append.mp hr with hc | hc
          · exfalso
            apply hpre
            rw [← hrid]
            exact List.mem_map_of_mem SavedHighlightRegion.id hc
          · rcases List.mem_cons.mp hc with hc | hc
            · exact hc
            · exfalso
              have hmap : (pre ++ x :: post).map SavedHighlightRegion.id =
                  pre.map SavedHighlightRegion.id ++
                    x.id :: post.map SavedHighlightRegion.id := by simp
              rw [hmap] at hnd
              have := List.Nodup.of_append_right hnd
              apply (List.nodup_cons.mp this).1
              rw [hid, ← hrid]
              exact List.mem_map_of_mem SavedHighlightRegion.id hc
        have hdisp : (deleteRegion s n).2.disposedDecals =
            s.disposedDecals ++ x.decalMesh.toList := by
          simp [deleteRegion, hp]
        rw [hdisp, ← hrp, hdecal]
        simp
  · intro hmem
    simp [deleteRegion, deleteLoop_eq_none n s.savedRegions hmem]

/-- Witness for C9 at Scenario D: deleting region 2 of the two-region demo
store (which owns decal renderable 7) succeeds, removes it from
`getRegions()`, clears the occlusion query state, and disposes handle 7;
deleting the unknown id 99 returns `false` and changes nothing. -/
theorem c9_deleteRegion_witness :
    ((deleteRegion demoTwoRegionState 2).1 = true ∧
      (∀ info ∈ getRegions (deleteRegion demoTwoRegionState 2).2, info.id ≠ 2) ∧
      (deleteRegion demoTwoRegionState 2).2.occlusionQueries = [] ∧
      (deleteRegion demoTwoRegionState 2).2.occlusionResults = [] ∧
      (∀ r ∈ demoTwoRegionState.savedRegions, r.id = 2 →
        ∀ hdl, r.decalMesh = Option.some hdl →
          hdl ∈ (deleteRegion demoTwoRegionState 2).2.disposedDecals)) ∧
    deleteRegion demoTwoRegionState 99 = (false, demoTwoRegionState) :=
  ⟨(c9_deleteRegion demoTwoRegionState 2 (by decide) rfl).1 (by decide),
    (c9_deleteRegion demoTwoRegionState 99 (by decide) rfl).2 (by decide)⟩

theorem labelEntries_mem (ndcOf : Vec3 → Vec3) (s : ViewerState)
    (l : List SavedHighlightRegion) :
    ∀ (k i : Nat) (r : SavedHighlightRegion), l[i]? = Option.some r →
      r.id ∉ s.hiddenRegionIds →
      mkLabelEntry ndcOf s (k + i) r ∈ labelEntries ndcOf s k l := by
  induction l with
  | nil =>
    intro k i r h _
    simp at h
  | cons r0 rest ih =>
    intro k i r h hh
    cases i with
    | zero =>
      simp only [List.getElem?_cons_zero, Option.some.injEq] at h
      subst h
      simp only [labelEntries, Nat.add_zero]
      rw [if_neg hh]
      exact List.mem_cons_self _ _
    | succ j =>
      have hs : k + (j + 1) = (k + 1) + j := by omega
      have hmem := ih (k + 1) j r (by simpa using h) hh
      rw [hs]
      simp only [labelEntries]
      split
      · exact hmem
      · exact List.mem_cons_of_mem _ hmem

theorem getLabelPositions_some (ndcOf : Vec3 → Vec3) (s : ViewerState)
    (ps : List LabelPosition) (s' : ViewerState)
    (h : getLabelPositions ndcOf s = (Option.some ps, s')) :
    ps = labelEntries ndcOf s 0 s.savedRegions := by
  simp only [getLabelPositions] at h
  split at h
  · simp at h
  · split at h
    · obtain ⟨h1, -⟩ := Prod.mk.injEq _ _ _ _ ▸ h
      exact (Option.some.inj h1).symm
    · simp at h

/-- **C6.** For every non-hidden saved region (with a camera present), the
entry `getLabelPositions` produces for it is in the returned list, and: when
the region's anchor projects behind the camera or outside the `[-1, 1]` NDC
range the entry has `visible = false` with both coordinates zeroed;
otherwise `visible` equals the cached occlusion-query result for the
region's store index, defaulting to visible when no result was recorded
yet. -/
theorem c6_getLabelPositions (ndcOf : Vec3 → Vec3) (s : ViewerState) (i : Nat)
    (r : SavedHighlightRegion) (ps : List LabelPosition) (s' : ViewerState)
    (hr : s.savedRegions[i]? = Option.some r)
    (hh : r.id ∉ s.hiddenRegionIds)
    (hc : s.cameraReady = true)
    (hres : getLabelPositions ndcOf s = (Option.some ps, s')) :
    mkLabelEntry ndcOf s i r ∈ ps ∧
    (ndcRejected (ndcOf r.position) →
      (mkLabelEntry ndcOf s i r).visible = false ∧
      (mkLabelEntry ndcOf s i r).x = 0 ∧ (mkLabelEntry ndcOf s i r).y = 0) ∧
    (¬ndcRejected (ndcOf r.position) →
      (mkLabelEntry ndcOf s i r).visible = (s.occlusionResults.lookup i).getD true) := by
  refine ⟨?_, ?_, ?_⟩
  · rw [getLabelPositions_some ndcOf s ps s' hres]
    have := labelEntries_mem ndcOf s s.savedRegions 0 i r hr hh
    simpa using this
  · intro hrej
    have hproj : project3DToScreen ndcOf s r.position = Option.none := by
      simp [project3DToScreen, hc, hrej]
    simp [mkLabelEntry, hproj]
  · intro hrej
    simp [mkLabelEntry, project3DToScreen, hc, hrej, checkPointVisibility]

/-- Witness for C6: with the identity-like projection sending everything to
the NDC origin, the demo store's first region produces an entry in the
returned list whose visibility is the occlusion default (visible), since no
occlusion result has been recorded yet. -/
theorem c6_getLabelPositions_witness :
    mkLabelEntry (fun _ => ⟨0, 0, 0⟩) demoTwoRegionState 0 demoCubeRegion ∈
      ((getLabelPositions (fun _ => ⟨0, 0, 0⟩) demoTwoRegionState).1.getD []) ∧
    (mkLabelEntry (fun _ => ⟨0, 0, 0⟩) demoTwoRegionState 0 demoCubeRegion).visible =
      (demoTwoRegionState.occlusionResults.lookup 0).getD true := by
  obtain ⟨h1, -, h3⟩ := c6_getLabelPositions (fun _ => ⟨0, 0, 0⟩) demoTwoRegionState 0
    demoCubeRegion
    ((getLabelPositions (fun _ => ⟨0, 0, 0⟩) demoTwoRegionState).1.getD [])
    (getLabelPositions (fun _ => ⟨0, 0, 0⟩) demoTwoRegionState).2
    rfl (by decide) rfl rfl
  exact ⟨h1, h3 (by decide)⟩

end Viewer

